import Mathlib

/-!
Verification development for the waymo-counter scan pipeline.

The Python source (src/main.py, src/detector.py, src/database.py,
src/storage.py, src/image_annotator.py, src/cameras.py) is shallowly
embedded below: pure functions become Lean functions, Python exceptions
become `Except Exn`, Python `None` becomes `Option.none`, Python floats
become rationals, and the heap objects touched by the annotator become an
explicit object heap.  `Except.error e` models an exception `e`
propagating (raised and not caught at that point); `Except.ok` models
normal return.
-/

namespace WaymoCounter

/-- Python exception values relevant to the pipeline, with enough payload
to distinguish the failure modes the code can hit. -/
inductive Exn where
  | attributeError (attr : String)
  | typeError (msg : String)
  | unidentifiedImage (msg : String)
  | httpError (msg : String)
  | valueError (msg : String)
  | other (msg : String)
deriving DecidableEq

/-- Models Python `str(e)` on an exception, as used by `process_camera`
when it converts a caught exception into the error field of its outcome
tuple (main.py line 59). -/
def exnToString : Exn → String
  | .attributeError a => "AttributeError: " ++ a
  | .typeError m => "TypeError: " ++ m
  | .unidentifiedImage m => "UnidentifiedImageError: " ++ m
  | .httpError m => "HTTPError: " ++ m
  | .valueError m => "ValueError: " ++ m
  | .other m => m

/-- Bounding box `[x1, y1, x2, y2]` in pixel coordinates.  The source
stores it as `list[float]` (detector.py line 22) always built from
`box.xyxy[0].tolist()`, which has exactly four entries; floats are
modelled as rationals. -/
structure Bbox where
  x1 : ℚ
  y1 : ℚ
  x2 : ℚ
  y2 : ℚ
deriving DecidableEq

/-- A single detection: detector.py lines 17-22. -/
structure Detection where
  confidence : ℚ
  bbox : Bbox
deriving DecidableEq

/-- Detection results for a single camera image: detector.py lines 25-32.
The dataclass declares exactly these four fields — in particular it has
no `original_image` field. -/
structure DetectionResult where
  camera_id : String
  waymo_count : Nat
  detections : List Detection
  avg_confidence : Option ℚ
deriving DecidableEq

/-- An Austin traffic camera: cameras.py lines 18-26. -/
structure Camera where
  camera_id : String
  location_name : String
  longitude : Option ℚ
  latitude : Option ℚ
  council_district : Option Int
deriving DecidableEq

/-- A UTC datetime down to microseconds, as produced by
`datetime.now(timezone.utc)`.  `strftime` with second resolution ignores
the `micro` field. -/
structure Timestamp where
  year : Nat
  month : Nat
  day : Nat
  hour : Nat
  minute : Nat
  second : Nat
  micro : Nat
deriving DecidableEq

/-- Raw image bytes, modelled opaquely. -/
abbrev Bytes := Nat

/-- A decoded PIL image handle as the detector sees it (opaque: the
detector only forwards it to the model). -/
abbrev PilImage := Nat

/-- Per-camera environment: the outcome of each external call the task
makes for this camera.  `fetch` models `CameraFetcher.fetch_image`
(returns `Optional[bytes]`, or raises); `decode` models
`Image.open(BytesIO(...))`; `predict` models `self.model.predict` plus
the box-extraction loop, yielding the detection list; `annotate`,
`compress` and `upload` model the render/upload collaborators reached
from main.py lines 48-50. -/
structure TaskEnv where
  fetch : Except Exn (Option Bytes)
  decode : Bytes → Except Exn PilImage
  predict : PilImage → Except Exn (List Detection)
  annotate : Except Exn PilImage
  compress : Except Exn Bytes
  upload : Except Exn (Option String)

/-- Embeds `WaymoDetector.detect_from_bytes` (detector.py lines 74-122):
decode the bytes (NOT wrapped in any try/except — a decode or inference
exception propagates to the caller), run inference, build the
detection list, and compute the average confidence (`None` iff no
detections). -/
def detectFromBytes (env : TaskEnv) (imageBytes : Bytes) (cameraId : String) :
    Except Exn DetectionResult :=
  match env.decode imageBytes with
  | .error e => .error e
  | .ok img =>
    match env.predict img with
    | .error e => .error e
    | .ok dets =>
      let avg : Option ℚ :=
        if dets.isEmpty then none
        else some ((dets.map (fun d => d.confidence)).sum / (dets.length : ℚ))
      .ok { camera_id := cameraId
            waymo_count := dets.length
            detections := dets
            avg_confidence := avg }

/-- Models the Python attribute access `result.original_image` on a
`DetectionResult` (main.py line 46).  detector.py lines 25-32 declare the
dataclass with fields `camera_id`, `waymo_count`, `detections`,
`avg_confidence` only, and nothing ever assigns an `original_image`
attribute before this read, so the access raises `AttributeError`. -/
def getOriginalImage (_r : DetectionResult) : Except Exn (Option PilImage) :=
  .error (.attributeError "original_image")

/-- The 4-tuple returned by `process_camera` (main.py line 28):
`(camera, detection_result, error_message, image_url)`. -/
structure Outcome where
  camera : Camera
  result : Option DetectionResult
  error : Option String
  imageUrl : Option String
deriving DecidableEq

/-- The failure tuple `(camera, None, str(e), None)` built by the
`except` clause of `process_camera` (main.py lines 58-59). -/
def failOutcome (cam : Camera) (e : Exn) : Outcome :=
  { camera := cam, result := none, error := some (exnToString e), imageUrl := none }

/-- External calls a camera task can make, recorded as a trace. -/
inductive Ev where
  | fetch
  | detect
  | annotate
  | compress
  | upload
deriving DecidableEq

/-- The body of `process_camera` (main.py lines 35-56), i.e. the code
inside the `try` block, before the `except Exception` handler is applied.
Returns the outcome (or a propagating exception) together with the trace
of external calls made.  The guard on main.py line 46 reads, in order:
`result` (a dataclass instance, always truthy), `result.waymo_count > 0`,
`image_storage`, then `result.original_image` — the last read is
modelled by `getOriginalImage`. -/
def processCameraAux (cam : Camera) (env : TaskEnv) (storage : Bool) :
    Except Exn Outcome × List Ev :=
  match env.fetch with
  | .error e => (.error e, [.fetch])
  | .ok none =>
    (.ok { camera := cam, result := none,
           error := some "Failed to fetch image", imageUrl := none }, [.fetch])
  | .ok (some imageBytes) =>
    match detectFromBytes env imageBytes cam.camera_id with
    | .error e => (.error e, [.fetch, .detect])
    | .ok r =>
      if 0 < r.waymo_count ∧ storage = true then
        match getOriginalImage r with
        | .error e => (.error e, [.fetch, .detect])
        | .ok none =>
          (.ok { camera := cam, result := some r, error := none, imageUrl := none },
           [.fetch, .detect])
        | .ok (some _img) =>
          match env.annotate with
          | .error e => (.error e, [.fetch, .detect, .annotate])
          | .ok _ann =>
            match env.compress with
            | .error e => (.error e, [.fetch, .detect, .annotate, .compress])
            | .ok _comp =>
              match env.upload with
              | .error e => (.error e, [.fetch, .detect, .annotate, .compress, .upload])
              | .ok url =>
                (.ok { camera := cam, result := some r, error := none, imageUrl := url },
                 [.fetch, .detect, .annotate, .compress, .upload])
      else
        (.ok { camera := cam, result := some r, error := none, imageUrl := none },
         [.fetch, .detect])

/-- Embeds `process_camera` (main.py lines 23-59): the `try` body wrapped
in `except Exception as e: return (camera, None, str(e), None)`. -/
def processCamera (cam : Camera) (env : TaskEnv) (storage : Bool) :
    Outcome × List Ev :=
  match processCameraAux cam env storage with
  | (.ok o, evs) => (o, evs)
  | (.error e, evs) => (failOutcome cam e, evs)

/-- Per-camera detail row built by `Database.insert_detection`
(database.py lines 95-108): exactly the keys of the `data` dict —
`scan_id`, `camera_id`, `timestamp`, `waymo_count`, `avg_confidence`,
`detections_json`.  There is no `image_reference` key. -/
structure DetailRow where
  scan_id : String
  camera_id : String
  timestamp : Timestamp
  waymo_count : Nat
  avg_confidence : Option ℚ
  detections_json : List (ℚ × Bbox)
deriving DecidableEq

/-- Models Python `round(q, 4)` (up to the tie-breaking mode, which no
claim depends on). -/
def round4 (q : ℚ) : ℚ := (round (q * 10000) : ℚ) / 10000

/-- Embeds `Database.insert_detection` (database.py lines 79-110) as the
list of rows it writes: `[]` when `result.waymo_count == 0` (the early
return, a no-op), otherwise the single row built from the result.  Note
the truthiness test `if result.avg_confidence` on line 106: both `None`
and `0.0` are falsy. -/
def insertDetection (scanId : String) (r : DetectionResult) (now : Timestamp) :
    List DetailRow :=
  if r.waymo_count = 0 then []
  else
    [{ scan_id := scanId
       camera_id := r.camera_id
       timestamp := now
       waymo_count := r.waymo_count
       avg_confidence :=
         match r.avg_confidence with
         | none => none
         | some a => if a = 0 then none else some (round4 a)
       detections_json := r.detections.map (fun d => (d.confidence, d.bbox)) }]

/-- Number of parameters of `Database.insert_detection` besides `self`:
`scan_id` and `result` (database.py lines 79-83). -/
def insertDetectionParamCount : Nat := 2

/-- Number of positional arguments main.py line 150 passes to
`db.insert_detection`: `scan_id, result, image_url`. -/
def mainInsertCallArgCount : Nat := 3

/-- Python positional-call semantics for a method with no defaulted
parameters: the call runs the body only when the argument count matches
the parameter count, otherwise it raises `TypeError` before the body
runs. -/
def pyCall (paramCount argCount : Nat) (body : α) : Except Exn α :=
  if argCount = paramCount then .ok body
  else .error (.typeError "insert_detection() takes 3 positional arguments but 4 were given")

/-- Camera metadata row built by `Database.bulk_upsert_cameras`
(database.py lines 140-151). -/
structure CameraRow where
  camera_id : String
  location_name : String
  longitude : Option ℚ
  latitude : Option ℚ
  council_district : Option Int
  last_scanned : Timestamp
  updated_at : Timestamp
deriving DecidableEq

/-- The row dict for one camera, with `last_scanned = updated_at = now`. -/
def toCameraRow (now : Timestamp) (c : Camera) : CameraRow :=
  { camera_id := c.camera_id
    location_name := c.location_name
    longitude := c.longitude
    latitude := c.latitude
    council_district := c.council_district
    last_scanned := now
    updated_at := now }

/-- Fixed batch size of `Database.bulk_upsert_cameras` (database.py
line 154). -/
def batchSize : Nat := 500

/-- Fuel-indexed chunking loop.  With `fuel ≥ l.length` this computes
exactly the slices `data[i:i+500]` for `i = 0, 500, 1000, ...` of the
Python loop `for i in range(0, len(data), batch_size)` (database.py
lines 155-157); the fuel only forces termination and is never exhausted
at the call site below. -/
def chunksAux : Nat → List α → List (List α)
  | _, [] => []
  | 0, l => [l]
  | fuel + 1, l => l.take batchSize :: chunksAux fuel (l.drop batchSize)

/-- The list of batches `Database.bulk_upsert_cameras` sends, one upsert
call per element (database.py lines 153-157). -/
def bulkChunks (l : List α) : List (List α) := chunksAux l.length l

/-- Embeds `Database.bulk_upsert_cameras` (database.py lines 131-157):
build one row per camera (in list order, all stamped with the same
`now`), then issue one upsert call per 500-row batch. -/
def bulkUpsertCameras (cameras : List Camera) (now : Timestamp) :
    List (List CameraRow) :=
  bulkChunks (cameras.map (toCameraRow now))

/-- Running aggregate state of the completion loop in `run_scan`
(main.py lines 110-114), plus the detail rows inserted so far. -/
structure LoopState where
  scanned : Nat
  failed : Nat
  totalCount : Nat
  camerasWith : Nat
  processed : List Camera
  details : List DetailRow
deriving DecidableEq

/-- The all-zero state established before the loop (main.py
lines 110-114). -/
def initLoopState : LoopState :=
  { scanned := 0, failed := 0, totalCount := 0, camerasWith := 0,
    processed := [], details := [] }

/-- One iteration of the completion loop of `run_scan` (main.py
lines 130-153) on a finished task outcome.  When the outcome carries a
result with `waymo_count > 0`, the loop calls
`db.insert_detection(scan_id, result, image_url)` — three positional
arguments against a two-parameter method, modelled through `pyCall`.  An
exception here propagates out of the loop (there is no handler), ending
the run. -/
def loopStep (scanId : String) (now : Timestamp) (s : LoopState)
    (oe : Outcome × List Ev) : Except Exn LoopState :=
  let o := oe.1
  match o.error with
  | some _ => .ok { s with failed := s.failed + 1 }
  | none =>
    let s1 := { s with scanned := s.scanned + 1,
                       processed := s.processed ++ [o.camera] }
    match o.result with
    | none => .ok s1
    | some r =>
      if 0 < r.waymo_count then
        let s2 := { s1 with totalCount := s1.totalCount + r.waymo_count,
                            camerasWith := s1.camerasWith + 1 }
        match pyCall insertDetectionParamCount mainInsertCallArgCount
            (insertDetection scanId r now) with
        | .error e => .error e
        | .ok rows => .ok { s2 with details := s2.details ++ rows }
      else .ok s1

/-- Folds the completion loop over the finished outcomes in arrival
order, propagating any exception raised inside the loop. -/
def loopSteps (scanId : String) (now : Timestamp) :
    LoopState → List (Outcome × List Ev) → Except Exn LoopState
  | s, [] => .ok s
  | s, oe :: rest =>
    match loopStep scanId now s oe with
    | .error e => .error e
    | .ok s1 => loopSteps scanId now s1 rest

/-- Final state of a completed run: the aggregates written by
`db.update_scan` (main.py lines 159-166) together with the detail rows
inserted during the loop and the batched metadata upsert calls issued by
`db.bulk_upsert_cameras(processed_cameras)` (main.py line 170). -/
structure RunSummary where
  totalCameras : Nat
  scanned : Nat
  failed : Nat
  totalCount : Nat
  camerasWith : Nat
  details : List DetailRow
  upserts : List (List CameraRow)
deriving DecidableEq

/-- Embeds `run_scan` (main.py lines 62-183) after component setup:
`cameras` is the fetched camera list, `envOf` gives each camera its
task environment, and `order` is the order in which the submitted tasks
complete (`as_completed` — any permutation of `cameras`).  Returns
`ok none` on the early exit for an empty camera list (main.py
lines 94-96); otherwise creates the scan record with
`total_cameras = len(cameras)` and zeroed counters, runs every task with
`image_storage` present, drains completions through the loop, and
finalizes.  An exception escaping the loop propagates out of `run_scan`
(modelled as `.error`). -/
def runScan (cameras : List Camera) (envOf : String → TaskEnv)
    (order : List Camera) (scanId : String) (now : Timestamp) :
    Except Exn (Option RunSummary) :=
  if cameras.isEmpty then .ok none
  else
    let outcomes := order.map (fun c => processCamera c (envOf c.camera_id) true)
    match loopSteps scanId now initLoopState outcomes with
    | .error e => .error e
    | .ok s =>
      .ok (some
        { totalCameras := cameras.length
          scanned := s.scanned
          failed := s.failed
          totalCount := s.totalCount
          camerasWith := s.camerasWith
          details := s.details
          upserts := bulkUpsertCameras s.processed now })

/-- Zero-pads a number to two digits, as `strftime` does for `%m`, `%d`,
`%H`, `%M`, `%S`. -/
def pad2 (n : Nat) : String :=
  if n < 10 then "0" ++ toString n else toString n

/-- Zero-pads a year to four digits, as `strftime` does for `%Y`. -/
def pad4 (n : Nat) : String :=
  if n < 10 then "000" ++ toString n
  else if n < 100 then "00" ++ toString n
  else if n < 1000 then "0" ++ toString n
  else toString n

/-- `timestamp.strftime("%Y-%m-%d")` (storage.py line 48). -/
def fmtDate (t : Timestamp) : String :=
  pad4 t.year ++ "-" ++ pad2 t.month ++ "-" ++ pad2 t.day

/-- `timestamp.strftime("%H%M%S")` (storage.py line 49). -/
def fmtTime (t : Timestamp) : String :=
  pad2 t.hour ++ pad2 t.minute ++ pad2 t.second

/-- The storage path built by `ImageStorage.upload_image` (storage.py
line 50): `detections/{camera_id}/{YYYY-MM-DD}/{HHMMSS}.jpg`. -/
def buildPath (cameraId : String) (t : Timestamp) : String :=
  "detections/" ++ cameraId ++ "/" ++ fmtDate t ++ "/" ++ fmtTime t ++ ".jpg"

/-- The path `ImageStorage.upload_image` uploads to (storage.py
lines 27-50): the image bytes play no part in it, and the wall clock
`now` is consulted only when no timestamp is supplied (lines 44-45). -/
def uploadImagePath (_imageBytes : Bytes) (cameraId : String)
    (timestamp : Option Timestamp) (now : Timestamp) : String :=
  buildPath cameraId (timestamp.getD now)

/-- Two timestamps agree down to the second (they may differ in
microseconds). -/
def sameSecond (t u : Timestamp) : Prop :=
  t.year = u.year ∧ t.month = u.month ∧ t.day = u.day ∧
  t.hour = u.hour ∧ t.minute = u.minute ∧ t.second = u.second

instance (t u : Timestamp) : Decidable (sameSecond t u) := by
  unfold sameSecond; infer_instance

/-- A raster image: dimensions plus a pixel map (colour per coordinate). -/
structure Image where
  width : Nat
  height : Nat
  pix : Nat → Nat → Nat

/-- The box colour `"#00FF00"` (image_annotator.py line 18). -/
def limeGreen : Nat := 0x00FF00

/-- The default box line width (image_annotator.py line 19). -/
def boxWidth : Nat := 3

/-- The label padding (image_annotator.py line 67). -/
def labelPadding : ℚ := 4

/-- Fills the axis-aligned rectangle from `(x1, y1)` to `(x2, y2)` with
colour `c`, modelling `draw.rectangle(..., fill=...)`. -/
def fillRect (c : Nat) (x1 y1 x2 y2 : ℚ) (im : Image) : Image :=
  { im with pix := fun x y =>
      if x1 ≤ (x : ℚ) ∧ (x : ℚ) ≤ x2 ∧ y1 ≤ (y : ℚ) ∧ (y : ℚ) ≤ y2
      then c else im.pix x y }

/-- Draws the outline of the rectangle from `(x1, y1)` to `(x2, y2)`
with colour `c` and line width `w`, modelling
`draw.rectangle(..., outline=..., width=...)`: the band of pixels inside
the rectangle within `w` of its border. -/
def outlineRect (c : Nat) (w : Nat) (x1 y1 x2 y2 : ℚ) (im : Image) : Image :=
  { im with pix := fun x y =>
      if (x1 ≤ (x : ℚ) ∧ (x : ℚ) ≤ x2 ∧ y1 ≤ (y : ℚ) ∧ (y : ℚ) ≤ y2) ∧
         ((x : ℚ) < x1 + w ∨ x2 - w < (x : ℚ) ∨ (y : ℚ) < y1 + w ∨ y2 - w < (y : ℚ))
      then c else im.pix x y }

/-- The confidence label text `f"{confidence * 100:.0f}%"`
(image_annotator.py line 59). -/
def confText (conf : ℚ) : String := toString (round (conf * 100) : ℤ) ++ "%"

/-- The vertical label position of `annotate_image` (image_annotator.py
lines 66-72): `label_y = y1 - text_height - label_padding * 2`, replaced
by `y2 + label_padding` when that is negative (the label would extend
above the image's top edge). -/
def labelY (y1 y2 textHeight : ℚ) : ℚ :=
  let ly := y1 - textHeight - labelPadding * 2
  if ly < 0 then y2 + labelPadding else ly

/-- Draws one detection (image_annotator.py lines 48-89): bounding-box
outline, label background filled with the box colour, then the label
text in black.  `fm` gives the `(width, height)` of a rendered text, as
`draw.textbbox` does for the loaded font; `textDraw` is the opaque glyph
raster of `draw.text`. -/
def drawDetection (fm : String → ℚ × ℚ)
    (textDraw : String → ℚ → ℚ → Image → Image)
    (im : Image) (d : Detection) : Image :=
  let im1 := outlineRect limeGreen boxWidth d.bbox.x1 d.bbox.y1 d.bbox.x2 d.bbox.y2 im
  let txt := confText d.confidence
  let tw := (fm txt).1
  let th := (fm txt).2
  let lx := d.bbox.x1
  let ly := labelY d.bbox.y1 d.bbox.y2 th
  let im2 := fillRect limeGreen lx ly (lx + tw + labelPadding * 2)
      (ly + th + labelPadding * 2) im1
  textDraw txt (lx + labelPadding) (ly + labelPadding) im2

/-- The full drawing pass of `annotate_image` over the detections list,
applied to the copy. -/
def drawAll (fm : String → ℚ × ℚ)
    (textDraw : String → ℚ → ℚ → Image → Image)
    (im : Image) (ds : List Detection) : Image :=
  ds.foldl (drawDetection fm textDraw) im

/-- A Python heap object reachable from `annotate_image`: a PIL image or
a detections list. -/
inductive Obj where
  | img (im : Image)
  | dets (ds : List Detection)

/-- An object heap: objects addressed by index (allocation order). -/
abbrev Heap := List Obj

/-- Embeds `annotate_image` (image_annotator.py lines 15-91) over the
object heap: it reads the image and the detections list at the given
references, allocates a fresh copy of the image (`image.copy()`,
line 36), draws every box and label on the copy only, and returns the
new heap and the reference of the annotated copy.  It performs no store
to either input object.  Non-image/non-list arguments would fail in
Python; modelled as `TypeError`. -/
def annotateImage (fm : String → ℚ × ℚ)
    (textDraw : String → ℚ → ℚ → Image → Image)
    (h : Heap) (imageRef detsRef : Nat) : Except Exn (Heap × Nat) :=
  match h.get? imageRef, h.get? detsRef with
  | some (.img im), some (.dets ds) =>
    .ok (h ++ [.img (drawAll fm textDraw im ds)], h.length)
  | _, _ => .error (.typeError "annotate_image: bad argument")

/-! Concrete cameras, environments and inputs used to instantiate the
theorems below on the spec's reference scenario and on witness inputs. -/

/-- Camera A of the spec's reference scenario. -/
def camA : Camera :=
  { camera_id := "A", location_name := "First St", longitude := some 10,
    latitude := some 20, council_district := some 1 }

/-- Camera B of the spec's reference scenario. -/
def camB : Camera :=
  { camera_id := "B", location_name := "Second St", longitude := some 11,
    latitude := some 21, council_district := some 2 }

/-- Camera C of the spec's reference scenario. -/
def camC : Camera :=
  { camera_id := "C", location_name := "Third St", longitude := some 12,
    latitude := some 22, council_district := none }

/-- A detection with confidence 0.8. -/
def det08 : Detection :=
  { confidence := 4/5, bbox := { x1 := 10, y1 := 20, x2 := 30, y2 := 40 } }

/-- The reference scenario's environments: camera A's image yields two
detections at confidence 0.8, camera B's fetch fails (returns `None`),
camera C's image yields no detections. -/
def scenarioEnv : String → TaskEnv := fun cid =>
  if cid = "A" then
    { fetch := .ok (some 1), decode := fun b => .ok b,
      predict := fun _ => .ok [det08, det08],
      annotate := .ok 7, compress := .ok 8, upload := .ok (some "url-a") }
  else if cid = "B" then
    { fetch := .ok none, decode := fun b => .ok b,
      predict := fun _ => .ok [],
      annotate := .ok 7, compress := .ok 8, upload := .ok none }
  else
    { fetch := .ok (some 3), decode := fun b => .ok b,
      predict := fun _ => .ok [],
      annotate := .ok 7, compress := .ok 8, upload := .ok none }

/-- A fixed wall-clock instant used to instantiate the runs. -/
def ts0 : Timestamp :=
  { year := 2025, month := 1, day := 2, hour := 3, minute := 4, second := 5,
    micro := 6 }

/-- A `DetectionResult` with two detections, as camera A's image
produces. -/
def resultTwoDetections : DetectionResult :=
  { camera_id := "A", waymo_count := 2, detections := [det08, det08],
    avg_confidence := some (4/5) }

/-- An environment whose fetch raises a network exception. -/
def envFetchRaise : TaskEnv :=
  { fetch := .error (.httpError "connection reset"),
    decode := fun b => .ok b, predict := fun _ => .ok [],
    annotate := .ok 7, compress := .ok 8, upload := .ok none }

/-- An environment whose image bytes fail to decode:
`Image.open` raises `UnidentifiedImageError`. -/
def envBadImage : TaskEnv :=
  { fetch := .ok (some 9),
    decode := fun _ => .error (.unidentifiedImage "cannot identify image file"),
    predict := fun _ => .ok [],
    annotate := .ok 7, compress := .ok 8, upload := .ok none }

/-- The chunk sizes produced by the batching loop on an input of given
length, mirroring the fuel pattern of `chunksAux`. -/
def chunkSizes : Nat → Nat → List Nat
  | _, 0 => []
  | 0, n + 1 => [n + 1]
  | fuel + 1, n + 1 => min batchSize (n + 1) :: chunkSizes fuel (n + 1 - batchSize)

/-- A directory of 1200 distinct cameras. -/
def cams1200 : List Camera :=
  (List.range 1200).map (fun i =>
    { camera_id := toString i, location_name := "", longitude := none,
      latitude := none, council_district := none })

/-- The zero-detection result camera C's image produces. -/
def resultZeroC : DetectionResult :=
  { camera_id := "C", waymo_count := 0, detections := [], avg_confidence := none }

/-- A blank 100 by 80 image. -/
def im0 : Image := { width := 100, height := 80, pix := fun _ _ => 0 }

/-- A two-object heap: the image at reference 0, a one-detection list at
reference 1. -/
def heap0 : Heap := [.img im0, .dets [det08]]

/-! Theorems. -/

/-- C1: on the spec's reference scenario (camera A: two detections at
confidence 0.8; camera B: fetch fails; camera C: zero detections) the run
does NOT end with the claimed aggregates.  Camera A's task hits the
missing `original_image` attribute of `DetectionResult` (main.py
line 46 against detector.py lines 25-32), so A is counted as failed:
the run ends with `cameras_scanned = 1`, `cameras_failed = 2`,
`total_count = 0`, `cameras_with_detections = 0`, no detail record, and
a metadata upsert containing only camera C — not the claimed
`cameras_scanned = 2`, `cameras_failed = 1`, `total_count = 2`,
`cameras_with_detections = 1`, one detail row for A, upsert {A, C}. -/
theorem c1_scenario_run_diverges :
    (processCamera camA (scenarioEnv "A") true).1.error
      = some (exnToString (.attributeError "original_image")) ∧
    runScan [camA, camB, camC] scenarioEnv [camA, camB, camC] "scan-1" ts0
      = .ok (some { totalCameras := 3, scanned := 1, failed := 2,
                    totalCount := 0, camerasWith := 0, details := [],
                    upserts := [[toCameraRow ts0 camC]] }) :=
  ⟨rfl, rfl⟩

/-- C2: the orchestrator's call `db.insert_detection(scan_id, result,
image_url)` (main.py line 150) passes three positional arguments to a
method declaring only two (database.py lines 79-83), so the call raises
`TypeError` instead of succeeding; the two-parameter method by itself
would have inserted a row, and that row has no image-reference field. -/
theorem c2_insert_detection_call_raises_type_error :
    pyCall insertDetectionParamCount mainInsertCallArgCount
        (insertDetection "scan-1" resultTwoDetections ts0)
      = .error (.typeError
          "insert_detection() takes 3 positional arguments but 4 were given") ∧
    insertDetection "scan-1" resultTwoDetections ts0
      = [{ scan_id := "scan-1", camera_id := "A", timestamp := ts0,
           waymo_count := 2, avg_confidence := some (4/5),
           detections_json := [(4/5, det08.bbox), (4/5, det08.bbox)] }] :=
  ⟨rfl, by norm_num [insertDetection, resultTwoDetections, round4, round_eq, det08]⟩

/-- C5 counterexample: on bytes that do not decode, `detect_from_bytes`
does not return a failure value — the `UnidentifiedImageError` raised by
`Image.open` (detector.py line 88, wrapped in no try/except) propagates
to the caller, modelled by `Except.error`. -/
theorem c5_detect_from_bytes_raises_on_bad_image :
    detectFromBytes envBadImage 9 "A"
      = .error (.unidentifiedImage "cannot identify image file") :=
  rfl

/-- C6: the confidence label is placed directly above the bounding box
(its bottom edge flush with the box top `y1`) unless the computed label
top `y1 - text_height - 2 * padding` is negative, in which case it is
placed below the box at `y2 + padding`; in particular any box with
`y1 = 0` gets its label below the box. -/
theorem c6_label_placement (y1 y2 th : ℚ) (hth : 0 ≤ th) :
    (0 ≤ y1 - th - labelPadding * 2 →
       labelY y1 y2 th = y1 - th - labelPadding * 2 ∧
       labelY y1 y2 th + th + labelPadding * 2 = y1) ∧
    (y1 - th - labelPadding * 2 < 0 →
       labelY y1 y2 th = y2 + labelPadding ∧ y2 < labelY y1 y2 th) ∧
    (y1 = 0 → labelY y1 y2 th = y2 + labelPadding) := by
  unfold labelY labelPadding
  constructor
  · intro hpos
    rw [if_neg (by linarith)]
    exact ⟨rfl, by ring⟩
  constructor
  · intro hneg
    rw [if_pos hneg]
    exact ⟨rfl, by norm_num⟩
  · intro h0
    subst h0
    rw [if_pos (by linarith)]

/-- C6 witness: a box at the top edge (`y1 = 0`, `y2 = 40`) with a
16-pixel-tall label renders the label below the box. -/
theorem c6_label_placement_witness :
    labelY 0 40 16 = 40 + labelPadding :=
  (c6_label_placement 0 40 16 (by norm_num)).2.2 rfl

/-- C7: the storage path of `ImageStorage.upload_image` depends only on
the camera id and the supplied timestamp down to the second — not on the
image bytes, the wall clock at call time, or sub-second fields. -/
theorem c7_upload_path_deterministic (b1 b2 : Bytes) (cid : String)
    (t1 t2 n1 n2 : Timestamp) (h : sameSecond t1 t2) :
    uploadImagePath b1 cid (some t1) n1 = uploadImagePath b2 cid (some t2) n2 := by
  obtain ⟨hy, hmo, hd, hh, hmi, hs⟩ := h
  simp [uploadImagePath, buildPath, fmtDate, fmtTime, hy, hmo, hd, hh, hmi, hs]

/-- C7 witness: two uploads of different bytes, at different wall-clock
instants, with timestamps differing only in microseconds, produce the
same path. -/
theorem c7_upload_path_deterministic_witness :
    uploadImagePath 1 "A" (some ts0)
        ({ year := 2030, month := 12, day := 31, hour := 23, minute := 59,
           second := 59, micro := 0 } : Timestamp)
      = uploadImagePath 2 "A"
        (some ({ year := 2025, month := 1, day := 2, hour := 3, minute := 4,
                 second := 5, micro := 999999 } : Timestamp))
        ({ year := 2031, month := 6, day := 15, hour := 1, minute := 2,
           second := 3, micro := 4 } : Timestamp) :=
  c7_upload_path_deterministic 1 2 "A" _ _ _ _ (by decide)

/-- Helper: when a camera task (run with image storage present, as in
`run_scan`) completes with a `DetectionResult` in its outcome, that
result has zero detections, the error field is empty, the trace stopped
after fetch and detect, and the outcome names the task's camera.  Any
result with a positive count dies on the `result.original_image` read
before the task can return it. -/
theorem processCamera_success_shape (cam : Camera) (env : TaskEnv)
    (r : DetectionResult)
    (hr : (processCamera cam env true).1.result = some r) :
    r.waymo_count = 0 ∧ (processCamera cam env true).1.error = none ∧
    (processCamera cam env true).2 = [Ev.fetch, Ev.detect] ∧
    (processCamera cam env true).1.camera = cam := by
  rcases hfe : env.fetch with e | ob
  · simp [processCamera, processCameraAux, hfe, failOutcome] at hr
  · rcases ob with _ | b
    · simp [processCamera, processCameraAux, hfe] at hr
    · rcases hd : detectFromBytes env b cam.camera_id with e | r2
      · simp [processCamera, processCameraAux, hfe, hd, failOutcome] at hr
      · by_cases hc : 0 < r2.waymo_count
        · simp [processCamera, processCameraAux, hfe, hd, hc, getOriginalImage,
            failOutcome] at hr
        · have hpc : processCamera cam env true =
              ({ camera := cam, result := some r2, error := none, imageUrl := none },
               [Ev.fetch, Ev.detect]) := by
            simp [processCamera, processCameraAux, hfe, hd, hc]
          rw [hpc] at hr ⊢
          simp only [Option.some.injEq] at hr
          subst hr
          exact ⟨Nat.eq_zero_of_not_pos hc, rfl, rfl, rfl⟩

/-- Helper: provided every completed outcome carrying a result has a
zero count (as `processCamera_success_shape` guarantees under
`run_scan`), the completion loop never raises, and it adds exactly one
to `cameras_scanned + cameras_failed` per drained outcome. -/
theorem loopSteps_total (sid : String) (now : Timestamp) :
    ∀ (l : List (Outcome × List Ev)) (s : LoopState),
      (∀ oe ∈ l, ∀ r, oe.1.result = some r → r.waymo_count = 0) →
      ∃ s2, loopSteps sid now s l = .ok s2 ∧
        s2.scanned + s2.failed = s.scanned + s.failed + l.length := by
  intro l
  induction l with
  | nil => exact fun s _ => ⟨s, rfl, by simp⟩
  | cons oe rest ih =>
    intro s hprop
    have hstep : ∃ s1, loopStep sid now s oe = .ok s1 ∧
        s1.scanned + s1.failed = s.scanned + s.failed + 1 := by
      rcases he : oe.1.error with _ | msg
      · rcases hrr : oe.1.result with _ | r
        · refine ⟨{ s with scanned := s.scanned + 1, processed := s.processed ++ [oe.1.camera] }, ?_, ?_⟩
          · simp [loopStep, he, hrr]
          · dsimp only
            omega
        · have hc := hprop oe (by simp) r hrr
          refine ⟨{ s with scanned := s.scanned + 1, processed := s.processed ++ [oe.1.camera] }, ?_, ?_⟩
          · simp [loopStep, he, hrr, hc]
          · dsimp only
            omega
      · refine ⟨{ s with failed := s.failed + 1 }, ?_, ?_⟩
        · simp [loopStep, he]
        · dsimp only
          omega
    obtain ⟨s1, h1, hsum1⟩ := hstep
    obtain ⟨s2, h2, hsum2⟩ := ih s1 (fun oe2 hm => hprop oe2 (List.mem_cons_of_mem _ hm))
    refine ⟨s2, by simp [loopSteps, h1, h2], ?_⟩
    rw [hsum2, hsum1]
    simp [List.length_cons]
    ring

/-- C3: for every camera list, every per-camera environment and every
completion order, a started run reaches `update_scan` with
`cameras_scanned + cameras_failed = total_cameras`, where
`total_cameras` is the camera-list length recorded at `create_scan`:
every drained task outcome bumps exactly one of the two counters. -/
theorem c3_scanned_plus_failed_eq_total (cameras : List Camera)
    (envOf : String → TaskEnv) (order : List Camera) (sid : String)
    (now : Timestamp) (hne : cameras ≠ []) (hperm : order.Perm cameras) :
    ∃ res, runScan cameras envOf order sid now = .ok (some res) ∧
      res.scanned + res.failed = res.totalCameras ∧
      res.totalCameras = cameras.length := by
  have hne2 : cameras.isEmpty = false := by
    simpa [List.isEmpty_iff] using hne
  obtain ⟨s2, hloop, hsum⟩ := loopSteps_total sid now
      (order.map fun c => processCamera c (envOf c.camera_id) true) initLoopState
      (by
        intro oe hm r hr
        obtain ⟨c, _, rfl⟩ := List.mem_map.mp hm
        exact (processCamera_success_shape c _ r hr).1)
  refine ⟨{ totalCameras := cameras.length, scanned := s2.scanned, failed := s2.failed, totalCount := s2.totalCount, camerasWith := s2.camerasWith, details := s2.details, upserts := bulkUpsertCameras s2.processed now }, ?_, ?_, rfl⟩
  · simp [runScan, hne2, hloop]
  · simp only [initLoopState, List.length_map] at hsum
    have hlen := hperm.length_eq
    simp only [hsum, hlen]
    omega

/-- C3 witness: a one-camera run satisfies the invariant. -/
theorem c3_scanned_plus_failed_witness :
    ∃ res, runScan [camA] scenarioEnv [camA] "scan-w" ts0 = .ok (some res) ∧
      res.scanned + res.failed = res.totalCameras ∧
      res.totalCameras = [camA].length :=
  c3_scanned_plus_failed_eq_total [camA] scenarioEnv [camA] "scan-w" ts0
    (by simp) (List.Perm.refl _)

/-- C4: whatever exception is raised inside the camera task — by the
fetch, by the image decode, by model inference, or by the render path's
attribute read — `process_camera` returns the failure tuple
`(camera, None, str(e), None)` instead of propagating, so the
orchestrator's completion loop never sees the exception. -/
theorem c4_task_never_propagates (cam : Camera) (env : TaskEnv)
    (storage : Bool) (e : Exn)
    (h : env.fetch = .error e ∨
         (∃ b, env.fetch = .ok (some b) ∧ env.decode b = .error e) ∨
         (∃ b i, env.fetch = .ok (some b) ∧ env.decode b = .ok i ∧
           env.predict i = .error e) ∨
         (∃ b i ds, env.fetch = .ok (some b) ∧ env.decode b = .ok i ∧
           env.predict i = .ok ds ∧ ds ≠ [] ∧ storage = true ∧
           e = .attributeError "original_image")) :
    (processCamera cam env storage).1 = failOutcome cam e := by
  rcases h with hf | ⟨b, hf, hd⟩ | ⟨b, i, hf, hd, hp⟩ | ⟨b, i, ds, hf, hd, hp, hne, hst, he⟩
  · simp [processCamera, processCameraAux, hf]
  · simp [processCamera, processCameraAux, detectFromBytes, hf, hd]
  · simp [processCamera, processCameraAux, detectFromBytes, hf, hd, hp]
  · subst hst he
    have hlen : 0 < ds.length := List.length_pos.mpr hne
    simp [processCamera, processCameraAux, detectFromBytes, hf, hd, hp,
      getOriginalImage, hlen]

/-- C4 witness: a fetch that raises a network exception yields the
failure tuple. -/
theorem c4_task_never_propagates_witness :
    (processCamera camA envFetchRaise true).1
      = failOutcome camA (.httpError "connection reset") :=
  c4_task_never_propagates camA envFetchRaise true (.httpError "connection reset")
    (Or.inl rfl)

/-- C5 amended: on a malformed image (or an inference failure)
`detect_from_bytes` itself raises; the exception is caught one level up,
at the task boundary of `process_camera`, and converted into the same
failure outcome a fetch failure produces. -/
theorem c5_decode_failure_caught_at_task_boundary (cam : Camera)
    (env : TaskEnv) (storage : Bool) (b : Bytes) (e : Exn)
    (hf : env.fetch = .ok (some b))
    (h : env.decode b = .error e ∨
         ∃ i, env.decode b = .ok i ∧ env.predict i = .error e) :
    detectFromBytes env b cam.camera_id = .error e ∧
    (processCamera cam env storage).1 = failOutcome cam e := by
  have hdet : detectFromBytes env b cam.camera_id = .error e := by
    rcases h with hd | ⟨i, hd, hp⟩
    · simp [detectFromBytes, hd]
    · simp [detectFromBytes, hd, hp]
  exact ⟨hdet, by simp [processCamera, processCameraAux, hf, hdet]⟩

/-- C5 amended witness: undecodable bytes make the task fail with the
decode exception converted to an error message. -/
theorem c5_decode_failure_witness :
    detectFromBytes envBadImage 9 camA.camera_id
        = .error (.unidentifiedImage "cannot identify image file") ∧
    (processCamera camA envBadImage true).1
        = failOutcome camA (.unidentifiedImage "cannot identify image file") :=
  c5_decode_failure_caught_at_task_boundary camA envBadImage true 9
    (.unidentifiedImage "cannot identify image file") rfl (Or.inl rfl)

/-- C8: a camera task that completes with a zero-count result triggers
no render and no upload call (its trace stops after fetch and detect),
`insert_detection` writes no row for it, and the completion loop still
counts it as scanned (and leaves the detail rows untouched). -/
theorem c8_zero_count_no_detail_no_upload (cam : Camera) (env : TaskEnv)
    (sid : String) (now : Timestamp) (r : DetectionResult) (s : LoopState)
    (hr : (processCamera cam env true).1.result = some r)
    (hc : r.waymo_count = 0) :
    insertDetection sid r now = [] ∧
    Ev.annotate ∉ (processCamera cam env true).2 ∧
    Ev.upload ∉ (processCamera cam env true).2 ∧
    (processCamera cam env true).1.error = none ∧
    ∃ s2, loopStep sid now s (processCamera cam env true) = .ok s2 ∧
      s2.scanned = s.scanned + 1 ∧ s2.failed = s.failed ∧
      s2.details = s.details := by
  obtain ⟨_, herr, hevs, _⟩ := processCamera_success_shape cam env r hr
  refine ⟨by simp [insertDetection, hc], by simp [hevs], by simp [hevs], herr, ?_⟩
  exact ⟨{ s with scanned := s.scanned + 1, processed := s.processed ++ [(processCamera cam env true).1.camera] }, by simp [loopStep, herr, hr, hc], rfl, rfl, rfl⟩

/-- C8 witness: camera C of the reference scenario completes with zero
detections; no render or upload happens, no detail row is written, and
it counts as scanned. -/
theorem c8_zero_count_witness :
    insertDetection "scan-w" resultZeroC ts0 = [] ∧
    Ev.annotate ∉ (processCamera camC (scenarioEnv "C") true).2 ∧
    Ev.upload ∉ (processCamera camC (scenarioEnv "C") true).2 ∧
    (processCamera camC (scenarioEnv "C") true).1.error = none ∧
    ∃ s2, loopStep "scan-w" ts0 initLoopState
        (processCamera camC (scenarioEnv "C") true) = .ok s2 ∧
      s2.scanned = initLoopState.scanned + 1 ∧
      s2.failed = initLoopState.failed ∧
      s2.details = initLoopState.details :=
  c8_zero_count_no_detail_no_upload camC (scenarioEnv "C") "scan-w" ts0
    resultZeroC initLoopState rfl rfl

/-- Helper: the batching loop's chunks concatenate back to the input
list — every element lands in exactly one chunk, in order. -/
theorem chunksAux_flatten : ∀ (fuel : Nat) (l : List α), l.length ≤ fuel →
    (chunksAux fuel l).flatten = l := by
  intro fuel
  induction fuel with
  | zero =>
    intro l hl
    have : l = [] := List.eq_nil_of_length_eq_zero (Nat.le_zero.mp hl)
    subst this
    rfl
  | succ fuel ih =>
    intro l hl
    cases l with
    | nil => rfl
    | cons a l2 =>
      have hdrop : ((a :: l2).drop batchSize).length ≤ fuel := by
        simp only [List.length_drop, List.length_cons, batchSize]
        simp only [List.length_cons] at hl
        omega
      simp only [chunksAux, List.flatten_cons, ih _ hdrop, List.take_append_drop]

/-- Helper: the lengths of the batching loop's chunks depend only on the
input length, through `chunkSizes`. -/
theorem chunksAux_sizes : ∀ (fuel : Nat) (l : List α),
    (chunksAux fuel l).map List.length = chunkSizes fuel l.length := by
  intro fuel
  induction fuel with
  | zero =>
    intro l
    cases l with
    | nil => rfl
    | cons a l2 => simp [chunksAux, chunkSizes]
  | succ fuel ih =>
    intro l
    cases l with
    | nil => rfl
    | cons a l2 =>
      simp only [chunksAux, List.map_cons, ih, List.length_take, List.length_drop,
        List.length_cons, chunkSizes]

/-- C9: `bulk_upsert_cameras` sends its rows (one per camera, in list
order) in consecutive batches of 500: the batches concatenate back to
the full row list (each camera in exactly one batch), and an input of
1200 cameras yields exactly three upsert calls of sizes 500, 500
and 200. -/
theorem c9_bulk_upsert_chunking (cams : List Camera) (now : Timestamp) :
    (bulkUpsertCameras cams now).flatten = cams.map (toCameraRow now) ∧
    (cams.length = 1200 →
      (bulkUpsertCameras cams now).map List.length = [500, 500, 200]) := by
  constructor
  · exact chunksAux_flatten _ _ le_rfl
  · intro h1200
    unfold bulkUpsertCameras bulkChunks
    rw [chunksAux_sizes, List.length_map, h1200]
    decide

/-- C9 witness: a directory of 1200 cameras is upserted in three calls
of sizes 500, 500 and 200, covering every camera exactly once in
order. -/
theorem c9_bulk_upsert_chunking_witness :
    (bulkUpsertCameras cams1200 ts0).map List.length = [500, 500, 200] ∧
    (bulkUpsertCameras cams1200 ts0).flatten = cams1200.map (toCameraRow ts0) :=
  ⟨(c9_bulk_upsert_chunking cams1200 ts0).2 (by simp [cams1200]),
   (c9_bulk_upsert_chunking cams1200 ts0).1⟩

/-- C10: `annotate_image` draws on a copy: it allocates a fresh object
(a reference equal to the old heap size, distinct from both inputs),
every pre-existing heap object — including the input image's pixels and
the detections list — is unchanged at its old reference, and the
returned reference holds the drawn copy. -/
theorem c10_annotate_draws_on_copy (fm : String → ℚ × ℚ)
    (td : String → ℚ → ℚ → Image → Image) (h : Heap) (iRef dRef : Nat)
    (im : Image) (ds : List Detection)
    (hi : h[iRef]? = some (Obj.img im)) (hd : h[dRef]? = some (Obj.dets ds)) :
    annotateImage fm td h iRef dRef
        = Except.ok (h ++ [Obj.img (drawAll fm td im ds)], h.length) ∧
    (∀ r, r < h.length →
      (h ++ [Obj.img (drawAll fm td im ds)])[r]? = h[r]?) ∧
    (h ++ [Obj.img (drawAll fm td im ds)])[iRef]? = some (Obj.img im) ∧
    (h ++ [Obj.img (drawAll fm td im ds)])[dRef]? = some (Obj.dets ds) ∧
    iRef ≠ h.length ∧ dRef ≠ h.length := by
  have hiLt : iRef < h.length := by
    by_contra hge
    rw [List.getElem?_eq_none (Nat.le_of_not_lt hge)] at hi
    exact Option.noConfusion hi
  have hdLt : dRef < h.length := by
    by_contra hge
    rw [List.getElem?_eq_none (Nat.le_of_not_lt hge)] at hd
    exact Option.noConfusion hd
  have hframe : ∀ r, r < h.length →
      (h ++ [Obj.img (drawAll fm td im ds)])[r]? = h[r]? := by
    intro r hr
    exact List.getElem?_append_left hr
  refine ⟨?_, hframe, ?_, ?_, Nat.ne_of_lt hiLt, Nat.ne_of_lt hdLt⟩
  · simp only [annotateImage, List.get?_eq_getElem?, hi, hd]
  · rw [hframe iRef hiLt]; exact hi
  · rw [hframe dRef hdLt]; exact hd

/-- C10 witness: annotating the image at reference 0 with the detection
list at reference 1 allocates reference 2 and leaves both inputs
untouched. -/
theorem c10_annotate_draws_on_copy_witness :
    annotateImage (fun _ => (10, 12)) (fun _ _ _ im => im) heap0 0 1
        = Except.ok (heap0 ++ [Obj.img (drawAll (fun _ => (10, 12)) (fun _ _ _ im => im) im0 [det08])], heap0.length) ∧
    (∀ r, r < heap0.length →
      (heap0 ++ [Obj.img (drawAll (fun _ => (10, 12)) (fun _ _ _ im => im) im0 [det08])])[r]? = heap0[r]?) ∧
    (heap0 ++ [Obj.img (drawAll (fun _ => (10, 12)) (fun _ _ _ im => im) im0 [det08])])[(0 : Nat)]? = some (Obj.img im0) ∧
    (heap0 ++ [Obj.img (drawAll (fun _ => (10, 12)) (fun _ _ _ im => im) im0 [det08])])[(1 : Nat)]? = some (Obj.dets [det08]) ∧
    (0 : Nat) ≠ heap0.length ∧ (1 : Nat) ≠ heap0.length :=
  c10_annotate_draws_on_copy (fun _ => (10, 12)) (fun _ _ _ im => im)
    heap0 0 1 im0 [det08] rfl rfl

end WaymoCounter
